import Mathlib

/-!
The handlers of pkg/endpoints/cluster.go.

A shallow embedding of the two handlers of `cluster.go`:

* `Resource.ProxyRequest`, the reverse proxy of a sub-path and query string;
* `Resource.GetProperties`, which assembles the `Properties` record.

Both handlers return nothing and act only through the collaborators they call
(`url.Parse`, `utils.Proxy`, `utils.RespondError`, the version probes, the
triggers detector, `response.WriteEntity`).  A handler is therefore embedded as
the list of collaborator calls it makes, in order, each with its arguments; the
collaborators whose results the handler consumes are parameters (`Env`).
-/

namespace Endpoints

/-! ## Data model -/

/-- Properties : properties we want to be able to retrieve via REST
(the struct of `cluster.go`, fields in declaration order). -/
structure Properties where
  DashboardNamespace : String
  DashboardVersion : String
  PipelineNamespace : String
  PipelineVersion : String
  TriggersNamespace : String
  TriggersVersion : String
  ReadOnly : Bool
  LogoutURL : String
  TenantNamespace : String
  StreamLogs : Bool
  ExternalLogsURL : String
  deriving DecidableEq, Repr

/-- Options read by the handlers: the fields of `r.Options` that `cluster.go`
reads, and the two namespaces its resolvers are methods of. -/
structure Options where
  InstallNamespace : String
  PipelinesNamespace : String
  TriggersNamespace : String
  TenantNamespace : String
  ReadOnly : Bool
  LogoutURL : String
  StreamLogs : Bool
  ExternalLogsURL : String
  deriving DecidableEq, Repr

/-- Config of the resource: `r.Config.Host` is the only field read. -/
structure Config where
  Host : String
  deriving DecidableEq, Repr

/-- Resource is the receiver of both handlers (clients are part of `Env`). -/
structure Resource where
  Config : Config
  Options : Options
  deriving DecidableEq, Repr

/-- URL is the result of `url.Parse`; only `RawQuery` is read. -/
structure URL where
  RawQuery : String
  deriving DecidableEq, Repr

/-- Request is the inbound `restful.Request`: the text of
`request.Request.URL.String()` and the path parameters. -/
structure Request where
  URLString : String
  PathParameter : String → String

/-- StatusNotFound is `http.StatusNotFound`. -/
def StatusNotFound : Int := 404

/-- Env holds the collaborators whose results the handlers consume.  An `error`
is its message; a nil `error` is `none`. -/
structure Env where
  /-- The function `url.Parse`. -/
  Parse : String → Except String URL
  /-- The function `utils.Proxy(request.Request, response, url, r.HttpClient)`. -/
  Proxy : Request → String → Int × Option String
  /-- The method `Options.GetPipelinesNamespace`. -/
  GetPipelinesNamespace : Options → String
  /-- The method `Options.GetTriggersNamespace`. -/
  GetTriggersNamespace : Options → String
  /-- The probe `getDashboardVersion(r, namespace)`. -/
  getDashboardVersion : Resource → String → String
  /-- The probe `getPipelineVersion(r, namespace)`. -/
  getPipelineVersion : Resource → String → String
  /-- The probe `getTriggersVersion(r, namespace)`. -/
  getTriggersVersion : Resource → String → String
  /-- The detector `IsTriggersInstalled(r, namespace)`. -/
  IsTriggersInstalled : Resource → String → Bool

/-- Call is one collaborator call made by a handler, with its arguments. -/
inductive Call where
  | Proxy (url : String)
  | RespondError (err : String) (statusCode : Int)
  | getDashboardVersion (ns : String)
  | getPipelineVersion (ns : String)
  | IsTriggersInstalled (ns : String)
  | getTriggersVersion (ns : String)
  | WriteEntity (p : Properties)
  deriving DecidableEq, Repr

/-! ## The handlers -/

/-- ProxyRequest does as the name suggests: proxies requests.  The result is
the list of calls made, in order. -/
def ProxyRequest (env : Env) (r : Resource) (request : Request) : List Call :=
  match env.Parse request.URLString with
  | .error err => [Call.RespondError err StatusNotFound]
  | .ok parsedURL =>
    let uri := request.PathParameter "subpath" ++ "?" ++ parsedURL.RawQuery
    let target := r.Config.Host ++ "/" ++ uri
    match env.Proxy request target with
    | (statusCode, some err) => [Call.Proxy target, Call.RespondError err statusCode]
    | (_, none) => [Call.Proxy target]

/-- GetProperties is used to get the installed namespace for the Dashboard,
the version of the Tekton Dashboard, the version of Tekton Pipelines, when
one's in read-only mode and Tekton Triggers version (if Installed).  The result
is the list of calls made, in order; `calls` collects the probe and detector
calls made so far. -/
def GetProperties (env : Env) (r : Resource) : List Call :=
  let pipelineNamespace := env.GetPipelinesNamespace r.Options
  let triggersNamespace := env.GetTriggersNamespace r.Options
  let dashboardVersion := env.getDashboardVersion r r.Options.InstallNamespace
  let pipelineVersion := env.getPipelineVersion r pipelineNamespace
  let calls :=
    [Call.getDashboardVersion r.Options.InstallNamespace,
     Call.getPipelineVersion pipelineNamespace]
  let properties : Properties :=
    { DashboardNamespace := r.Options.InstallNamespace
      DashboardVersion := dashboardVersion
      PipelineNamespace := pipelineNamespace
      PipelineVersion := pipelineVersion
      TriggersNamespace := ""
      TriggersVersion := ""
      ReadOnly := r.Options.ReadOnly
      LogoutURL := r.Options.LogoutURL
      TenantNamespace := r.Options.TenantNamespace
      StreamLogs := r.Options.StreamLogs
      ExternalLogsURL := "" }
  let properties :=
    if r.Options.ExternalLogsURL ≠ "" then
      { properties with ExternalLogsURL := "/v1/logs-proxy" }
    else properties
  let isTriggersInstalled := env.IsTriggersInstalled r triggersNamespace
  let calls := calls ++ [Call.IsTriggersInstalled triggersNamespace]
  if isTriggersInstalled then
    let triggersVersion := env.getTriggersVersion r triggersNamespace
    let properties :=
      { properties with
        TriggersNamespace := triggersNamespace
        TriggersVersion := triggersVersion }
    calls ++ [Call.getTriggersVersion triggersNamespace, Call.WriteEntity properties]
  else
    calls ++ [Call.WriteEntity properties]

/-! ## Reading a list of calls -/

/-- The target URLs of the `utils.Proxy` calls, in order. -/
def proxyTargets : List Call → List String
  | [] => []
  | Call.Proxy url :: cs => url :: proxyTargets cs
  | _ :: cs => proxyTargets cs

/-- The error responses written through `utils.RespondError`, in order. -/
def errorResponses : List Call → List (String × Int)
  | [] => []
  | Call.RespondError err code :: cs => (err, code) :: errorResponses cs
  | _ :: cs => errorResponses cs

/-- The records written through `response.WriteEntity`, in order. -/
def writtenEntities : List Call → List Properties
  | [] => []
  | Call.WriteEntity p :: cs => p :: writtenEntities cs
  | _ :: cs => writtenEntities cs

/-- The namespaces `getTriggersVersion` was called with, in order. -/
def triggersVersionProbes : List Call → List String
  | [] => []
  | Call.getTriggersVersion ns :: cs => ns :: triggersVersionProbes cs
  | _ :: cs => triggersVersionProbes cs

/-- The namespaces `IsTriggersInstalled` was called with, in order. -/
def detectorCalls : List Call → List String
  | [] => []
  | Call.IsTriggersInstalled ns :: cs => ns :: detectorCalls cs
  | _ :: cs => detectorCalls cs

/-! ## Serialization of `Properties`

`WriteEntity` hands the record to `encoding/json`.  Of that encoder the model
keeps what the struct tags of `Properties` decide: one member per field, in
declaration order, under the tag's name, and a field tagged `omitempty` is left
out when its value is empty (a string of length 0, `false`).  Whitespace and
string escaping are not modelled: a serialized object is its list of members.
-/

/-- A JSON value of a member of the serialized record. -/
inductive JSONValue where
  | str (s : String)
  | bool (b : Bool)
  deriving DecidableEq, Repr

/-- The `json:"..."` tag of a struct field. -/
structure FieldTag where
  name : String
  omitEmpty : Bool
  deriving DecidableEq, Repr

/-- The emptiness test of `encoding/json` for `omitempty`. -/
def isEmptyValue : JSONValue → Bool
  | .str s => s.length == 0
  | .bool b => !b

/-- The fields of `Properties` with their tags, in declaration order. -/
def Properties.fields (p : Properties) : List (FieldTag × JSONValue) :=
  [ (⟨"DashboardNamespace", false⟩, .str p.DashboardNamespace),
    (⟨"DashboardVersion", false⟩, .str p.DashboardVersion),
    (⟨"PipelineNamespace", false⟩, .str p.PipelineNamespace),
    (⟨"PipelineVersion", false⟩, .str p.PipelineVersion),
    (⟨"TriggersNamespace", true⟩, .str p.TriggersNamespace),
    (⟨"TriggersVersion", true⟩, .str p.TriggersVersion),
    (⟨"ReadOnly", false⟩, .bool p.ReadOnly),
    (⟨"LogoutURL", true⟩, .str p.LogoutURL),
    (⟨"TenantNamespace", true⟩, .str p.TenantNamespace),
    (⟨"StreamLogs", false⟩, .bool p.StreamLogs),
    (⟨"ExternalLogsURL", false⟩, .str p.ExternalLogsURL) ]

/-- The members of the serialized record, in output order. -/
def marshal (p : Properties) : List (String × JSONValue) :=
  (p.fields.filter (fun f => !(f.1.omitEmpty && isEmptyValue f.2))).map
    (fun f => (f.1.name, f.2))

/-- The keys of the serialized record, in output order. -/
def keys (p : Properties) : List String :=
  (marshal p).map Prod.fst

/-- The serialized output of a handler run: the members of each record written. -/
def serialized (cs : List Call) : List (List (String × JSONValue)) :=
  (writtenEntities cs).map marshal

/-! ## Concrete inputs -/

/-- A cluster for the examples: `url.Parse` accepts the texts without a space
and splits at the first `?`, `utils.Proxy` fails with 502 on the host
`http://down` and succeeds elsewhere, the resolvers return the configured
namespace of the subsystem, the probes return the given versions and the
detector the given answer. -/
def cluster (dashboardVersion pipelineVersion triggersVersion : String)
    (triggersInstalled : Bool) : Env where
  Parse := fun s =>
    if ' ' ∈ s.data then .error "invalid character in URL"
    else .ok ⟨String.mk ((s.data.dropWhile (fun c => c != '?')).drop 1)⟩
  Proxy := fun _ url =>
    if "http://down".data.isPrefixOf url.data then (502, some "connection refused")
    else (200, none)
  GetPipelinesNamespace := fun o => o.PipelinesNamespace
  GetTriggersNamespace := fun o => o.TriggersNamespace
  getDashboardVersion := fun _ _ => dashboardVersion
  getPipelineVersion := fun _ _ => pipelineVersion
  getTriggersVersion := fun _ _ => triggersVersion
  IsTriggersInstalled := fun _ _ => triggersInstalled

/-- The options with every field at its zero value. -/
def zeroOptions : Options :=
  { InstallNamespace := "", PipelinesNamespace := "", TriggersNamespace := "",
    TenantNamespace := "", ReadOnly := false, LogoutURL := "", StreamLogs := false,
    ExternalLogsURL := "" }

/-- A resource with the given host and options. -/
def resourceFor (host : String) (o : Options) : Resource :=
  { Config := ⟨host⟩, Options := o }

/-- A request for the given URL text whose only path parameter is `subpath`. -/
def requestFor (urlString subpath : String) : Request :=
  { URLString := urlString
    PathParameter := fun name => if name = "subpath" then subpath else "" }

/-- The record of a run in closed form, field by field; `GetProperties` writes
this record and no other (`writtenEntities_GetProperties`). -/
def GetProperties.record (env : Env) (r : Resource) : Properties :=
  { DashboardNamespace := r.Options.InstallNamespace
    DashboardVersion := env.getDashboardVersion r r.Options.InstallNamespace
    PipelineNamespace := env.GetPipelinesNamespace r.Options
    PipelineVersion := env.getPipelineVersion r (env.GetPipelinesNamespace r.Options)
    TriggersNamespace :=
      if env.IsTriggersInstalled r (env.GetTriggersNamespace r.Options) then
        env.GetTriggersNamespace r.Options
      else ""
    TriggersVersion :=
      if env.IsTriggersInstalled r (env.GetTriggersNamespace r.Options) then
        env.getTriggersVersion r (env.GetTriggersNamespace r.Options)
      else ""
    ReadOnly := r.Options.ReadOnly
    LogoutURL := r.Options.LogoutURL
    TenantNamespace := r.Options.TenantNamespace
    StreamLogs := r.Options.StreamLogs
    ExternalLogsURL := if r.Options.ExternalLogsURL ≠ "" then "/v1/logs-proxy" else "" }

/-- The resource `r` with another configured external logs URL. -/
def withExternalLogsURL (r : Resource) (url : String) : Resource :=
  { r with Options := { r.Options with ExternalLogsURL := url } }

/-- The resolvers, the probes and the detector give `GetProperties` the same
results in the run `(env', r')` as in the run `(env, r)`. -/
def sameResults (env : Env) (r : Resource) (env' : Env) (r' : Resource) : Prop :=
  env'.GetPipelinesNamespace r'.Options = env.GetPipelinesNamespace r.Options
  ∧ env'.GetTriggersNamespace r'.Options = env.GetTriggersNamespace r.Options
  ∧ env'.getDashboardVersion r' r'.Options.InstallNamespace =
      env.getDashboardVersion r r.Options.InstallNamespace
  ∧ env'.getPipelineVersion r' (env'.GetPipelinesNamespace r'.Options) =
      env.getPipelineVersion r (env.GetPipelinesNamespace r.Options)
  ∧ env'.IsTriggersInstalled r' (env'.GetTriggersNamespace r'.Options) =
      env.IsTriggersInstalled r (env.GetTriggersNamespace r.Options)
  ∧ env'.getTriggersVersion r' (env'.GetTriggersNamespace r'.Options) =
      env.getTriggersVersion r (env.GetTriggersNamespace r.Options)

instance (env : Env) (r : Resource) (env' : Env) (r' : Resource) :
    Decidable (sameResults env r env' r') := by
  unfold sameResults; infer_instance

/-- The eight base fields of a record: the dashboard and pipeline namespaces
and versions, `ReadOnly`, `LogoutURL`, `TenantNamespace` and `StreamLogs`. -/
def baseFields (p : Properties) :
    String × String × String × String × Bool × String × String × Bool :=
  (p.DashboardNamespace, p.DashboardVersion, p.PipelineNamespace, p.PipelineVersion,
    p.ReadOnly, p.LogoutURL, p.TenantNamespace, p.StreamLogs)

/-- The configuration of the example: `InstallNamespace`, `PipelinesNamespace`,
`ReadOnly` and `ExternalLogsURL` set, every other option at its zero value. -/
def exampleOptions : Options :=
  { zeroOptions with
    InstallNamespace := "tekton-dashboard"
    PipelinesNamespace := "tekton-pipelines"
    ReadOnly := true
    ExternalLogsURL := "http://logs.example.com" }

/-- The members of the example output as the specification lists them. -/
def exampleListedOutput : List (String × JSONValue) :=
  [ ("DashboardNamespace", .str "tekton-dashboard"),
    ("PipelineNamespace", .str "tekton-pipelines"),
    ("ReadOnly", .bool true),
    ("ExternalLogsURL", .str "/v1/logs-proxy"),
    ("StreamLogs", .bool false) ]

/-- The members of the example output as the encoder writes them. -/
def exampleOutput : List (String × JSONValue) :=
  [ ("DashboardNamespace", .str "tekton-dashboard"),
    ("DashboardVersion", .str ""),
    ("PipelineNamespace", .str "tekton-pipelines"),
    ("PipelineVersion", .str ""),
    ("ReadOnly", .bool true),
    ("StreamLogs", .bool false),
    ("ExternalLogsURL", .str "/v1/logs-proxy") ]

/-! ## Shared lemmas -/

theorem ProxyRequest_of_parse_error (env : Env) (r : Resource) (request : Request)
    (err : String) (h : env.Parse request.URLString = .error err) :
    ProxyRequest env r request = [Call.RespondError err StatusNotFound] := by
  simp only [ProxyRequest, h]

theorem ProxyRequest_of_parse_ok (env : Env) (r : Resource) (request : Request)
    (parsedURL : URL) (h : env.Parse request.URLString = .ok parsedURL) :
    ProxyRequest env r request =
      Call.Proxy (r.Config.Host ++ "/" ++
          (request.PathParameter "subpath" ++ "?" ++ parsedURL.RawQuery)) ::
        (match (env.Proxy request (r.Config.Host ++ "/" ++
            (request.PathParameter "subpath" ++ "?" ++ parsedURL.RawQuery))).2 with
          | some err =>
            [Call.RespondError err (env.Proxy request (r.Config.Host ++ "/" ++
              (request.PathParameter "subpath" ++ "?" ++ parsedURL.RawQuery))).1]
          | none => []) := by
  simp only [ProxyRequest, h]
  rcases hp : env.Proxy request (r.Config.Host ++ "/" ++
    (request.PathParameter "subpath" ++ "?" ++ parsedURL.RawQuery)) with ⟨code, _ | err⟩ <;> rfl

theorem GetProperties_eq (env : Env) (r : Resource) :
    GetProperties env r =
      [Call.getDashboardVersion r.Options.InstallNamespace,
       Call.getPipelineVersion (env.GetPipelinesNamespace r.Options),
       Call.IsTriggersInstalled (env.GetTriggersNamespace r.Options)]
      ++ (if env.IsTriggersInstalled r (env.GetTriggersNamespace r.Options) then
            [Call.getTriggersVersion (env.GetTriggersNamespace r.Options)]
          else [])
      ++ [Call.WriteEntity (GetProperties.record env r)] := by
  by_cases hd : env.IsTriggersInstalled r (env.GetTriggersNamespace r.Options) = true <;>
    by_cases he : r.Options.ExternalLogsURL = "" <;>
    simp [GetProperties, GetProperties.record, hd, he]

theorem writtenEntities_GetProperties (env : Env) (r : Resource) :
    writtenEntities (GetProperties env r) = [GetProperties.record env r] := by
  rw [GetProperties_eq]
  by_cases hd : env.IsTriggersInstalled r (env.GetTriggersNamespace r.Options) = true <;>
    simp [hd, writtenEntities]

theorem triggersVersionProbes_GetProperties (env : Env) (r : Resource) :
    triggersVersionProbes (GetProperties env r) =
      if env.IsTriggersInstalled r (env.GetTriggersNamespace r.Options) then
        [env.GetTriggersNamespace r.Options]
      else [] := by
  rw [GetProperties_eq]
  by_cases hd : env.IsTriggersInstalled r (env.GetTriggersNamespace r.Options) = true <;>
    simp [hd, triggersVersionProbes]

theorem detectorCalls_GetProperties (env : Env) (r : Resource) :
    detectorCalls (GetProperties env r) = [env.GetTriggersNamespace r.Options] := by
  rw [GetProperties_eq]
  by_cases hd : env.IsTriggersInstalled r (env.GetTriggersNamespace r.Options) = true <;>
    simp [hd, detectorCalls]

theorem baseFields_record (env : Env) (r : Resource) :
    baseFields (GetProperties.record env r) =
      (r.Options.InstallNamespace, env.getDashboardVersion r r.Options.InstallNamespace,
        env.GetPipelinesNamespace r.Options,
        env.getPipelineVersion r (env.GetPipelinesNamespace r.Options),
        r.Options.ReadOnly, r.Options.LogoutURL, r.Options.TenantNamespace,
        r.Options.StreamLogs) :=
  rfl

/-! ## Serialization lemmas -/

theorem isEmptyValue_str (s : String) : isEmptyValue (.str s) = decide (s = "") := by
  have h : s.length = 0 ↔ s = "" := by
    constructor
    · intro h0
      have hd : s.data = [] := List.length_eq_zero.mp h0
      exact String.ext hd
    · rintro rfl
      rfl
  by_cases hs : s = ""
  · subst hs
    simp [isEmptyValue]
  · have hlen : s.length ≠ 0 := fun h0 => hs (h.mp h0)
    simp [isEmptyValue, hs, hlen]

theorem mem_keys_TriggersNamespace (p : Properties) :
    "TriggersNamespace" ∈ keys p ↔ p.TriggersNamespace ≠ "" := by
  by_cases h1 : p.TriggersNamespace = "" <;> by_cases h2 : p.TriggersVersion = "" <;>
    by_cases h3 : p.LogoutURL = "" <;> by_cases h4 : p.TenantNamespace = "" <;>
    simp [keys, marshal, Properties.fields, List.filter_cons, isEmptyValue_str, h1, h2, h3, h4]

theorem mem_keys_TriggersVersion (p : Properties) :
    "TriggersVersion" ∈ keys p ↔ p.TriggersVersion ≠ "" := by
  by_cases h1 : p.TriggersNamespace = "" <;> by_cases h2 : p.TriggersVersion = "" <;>
    by_cases h3 : p.LogoutURL = "" <;> by_cases h4 : p.TenantNamespace = "" <;>
    simp [keys, marshal, Properties.fields, List.filter_cons, isEmptyValue_str, h1, h2, h3, h4]

theorem marshal_ExternalLogsURL (p : Properties) :
    (marshal p).filter (fun m => m.1 = "ExternalLogsURL") =
      [("ExternalLogsURL", .str p.ExternalLogsURL)] := by
  by_cases h1 : p.TriggersNamespace = "" <;> by_cases h2 : p.TriggersVersion = "" <;>
    by_cases h3 : p.LogoutURL = "" <;> by_cases h4 : p.TenantNamespace = "" <;>
    simp [marshal, Properties.fields, List.filter_cons, isEmptyValue_str, h1, h2, h3, h4]

theorem mem_marshal_TriggersNamespace (p : Properties) (h : p.TriggersNamespace ≠ "") :
    ("TriggersNamespace", JSONValue.str p.TriggersNamespace) ∈ marshal p := by
  by_cases h2 : p.TriggersVersion = "" <;>
    by_cases h3 : p.LogoutURL = "" <;> by_cases h4 : p.TenantNamespace = "" <;>
    simp [marshal, Properties.fields, List.filter_cons, isEmptyValue_str, h, h2, h3, h4]

theorem mem_marshal_TriggersVersion (p : Properties) (h : p.TriggersVersion ≠ "") :
    ("TriggersVersion", JSONValue.str p.TriggersVersion) ∈ marshal p := by
  by_cases h1 : p.TriggersNamespace = "" <;>
    by_cases h3 : p.LogoutURL = "" <;> by_cases h4 : p.TenantNamespace = "" <;>
    simp [marshal, Properties.fields, List.filter_cons, isEmptyValue_str, h, h1, h3, h4]

/-! ## ProxyRequest -/

/-- C1: when the request URL parses, the one target URL handed to `utils.Proxy`
is `Host ++ "/" ++ subpath ++ "?" ++ RawQuery`; with an empty `RawQuery` the
target is `Host ++ "/" ++ subpath ++ "?"`, the `?` still at its end. -/
theorem ProxyRequest_target (env : Env) (r : Resource) (request : Request)
    (parsedURL : URL) (h : env.Parse request.URLString = .ok parsedURL) :
    proxyTargets (ProxyRequest env r request) =
        [r.Config.Host ++ "/" ++ request.PathParameter "subpath" ++ "?" ++ parsedURL.RawQuery]
      ∧ (parsedURL.RawQuery = "" →
          proxyTargets (ProxyRequest env r request) =
            [r.Config.Host ++ "/" ++ request.PathParameter "subpath" ++ "?"]) := by
  have key : proxyTargets (ProxyRequest env r request) =
      [r.Config.Host ++ "/" ++ request.PathParameter "subpath" ++ "?" ++ parsedURL.RawQuery] := by
    rw [ProxyRequest_of_parse_ok env r request parsedURL h]
    cases (env.Proxy request (r.Config.Host ++ "/" ++
      (request.PathParameter "subpath" ++ "?" ++ parsedURL.RawQuery))).2 <;>
      simp [proxyTargets, String.append_assoc]
  refine ⟨key, fun hq => ?_⟩
  rw [key, hq, String.append_empty]

/-- Witness of C1: a watch request on a reachable host, and a request without a
query string. -/
theorem ProxyRequest_target_witness :
    (cluster "" "" "" false).Parse "/proxy/api/v1/pods?watch=true" = .ok ⟨"watch=true"⟩
      ∧ proxyTargets (ProxyRequest (cluster "" "" "" false)
          (resourceFor "http://kube" zeroOptions)
          (requestFor "/proxy/api/v1/pods?watch=true" "api/v1/pods")) =
        ["http://kube/api/v1/pods?watch=true"]
      ∧ (cluster "" "" "" false).Parse "/proxy/api/v1/pods" = .ok ⟨""⟩
      ∧ proxyTargets (ProxyRequest (cluster "" "" "" false)
          (resourceFor "http://kube" zeroOptions)
          (requestFor "/proxy/api/v1/pods" "api/v1/pods")) =
        ["http://kube/api/v1/pods?"] :=
  ⟨rfl,
   (ProxyRequest_target (cluster "" "" "" false) (resourceFor "http://kube" zeroOptions)
      (requestFor "/proxy/api/v1/pods?watch=true" "api/v1/pods") ⟨"watch=true"⟩ rfl).1,
   rfl,
   (ProxyRequest_target (cluster "" "" "" false) (resourceFor "http://kube" zeroOptions)
      (requestFor "/proxy/api/v1/pods" "api/v1/pods") ⟨""⟩ rfl).2 rfl⟩

/-- C2: when the request URL does not parse, the handler makes one call only,
`utils.RespondError` with the parse error and status 404; `utils.Proxy` is not
called. -/
theorem ProxyRequest_parse_error (env : Env) (r : Resource) (request : Request)
    (err : String) (h : env.Parse request.URLString = .error err) :
    ProxyRequest env r request = [Call.RespondError err 404]
      ∧ errorResponses (ProxyRequest env r request) = [(err, 404)]
      ∧ proxyTargets (ProxyRequest env r request) = [] := by
  rw [ProxyRequest_of_parse_error env r request err h]
  simp [StatusNotFound, errorResponses, proxyTargets]

/-- Witness of C2: a URL with a space in it. -/
theorem ProxyRequest_parse_error_witness :
    (cluster "" "" "" false).Parse "/proxy/a b" = .error "invalid character in URL"
      ∧ ProxyRequest (cluster "" "" "" false) (resourceFor "http://kube" zeroOptions)
          (requestFor "/proxy/a b" "a b") =
        [Call.RespondError "invalid character in URL" 404] :=
  ⟨rfl, (ProxyRequest_parse_error (cluster "" "" "" false)
    (resourceFor "http://kube" zeroOptions) (requestFor "/proxy/a b" "a b")
    "invalid character in URL" rfl).1⟩

/-- C3: when the request URL parses and `utils.Proxy` returns an error with
status code `s`, the handler calls `utils.Proxy` once and then
`utils.RespondError` once, with that error and `s`. -/
theorem ProxyRequest_proxy_error (env : Env) (r : Resource) (request : Request)
    (parsedURL : URL) (s : Int) (err : String)
    (hparse : env.Parse request.URLString = .ok parsedURL)
    (hproxy : env.Proxy request (r.Config.Host ++ "/" ++
        (request.PathParameter "subpath" ++ "?" ++ parsedURL.RawQuery)) = (s, some err)) :
    ProxyRequest env r request =
        [Call.Proxy (r.Config.Host ++ "/" ++
            (request.PathParameter "subpath" ++ "?" ++ parsedURL.RawQuery)),
         Call.RespondError err s]
      ∧ errorResponses (ProxyRequest env r request) = [(err, s)]
      ∧ (proxyTargets (ProxyRequest env r request)).length = 1 := by
  rw [ProxyRequest_of_parse_ok env r request parsedURL hparse, hproxy]
  simp [errorResponses, proxyTargets]

/-- Witness of C3: a host that refuses the connection, reported as 502. -/
theorem ProxyRequest_proxy_error_witness :
    (cluster "" "" "" false).Parse "/proxy/api/v1/pods?watch=true" = .ok ⟨"watch=true"⟩
      ∧ (cluster "" "" "" false).Proxy
          (requestFor "/proxy/api/v1/pods?watch=true" "api/v1/pods")
          "http://down/api/v1/pods?watch=true" = (502, some "connection refused")
      ∧ ProxyRequest (cluster "" "" "" false) (resourceFor "http://down" zeroOptions)
          (requestFor "/proxy/api/v1/pods?watch=true" "api/v1/pods") =
        [Call.Proxy "http://down/api/v1/pods?watch=true",
         Call.RespondError "connection refused" 502] :=
  ⟨rfl, rfl,
   (ProxyRequest_proxy_error (cluster "" "" "" false) (resourceFor "http://down" zeroOptions)
    (requestFor "/proxy/api/v1/pods?watch=true" "api/v1/pods") ⟨"watch=true"⟩ 502
    "connection refused" rfl rfl).1⟩

/-! ## GetProperties -/

/-- C4: with a non-empty configured `ExternalLogsURL` the record written has
`ExternalLogsURL = "/v1/logs-proxy"`; a run that differs only in the non-empty
content of `ExternalLogsURL`, with the same resolver, probe and detector
results, makes the same calls and writes the same record. -/
theorem GetProperties_externalLogsURL (env : Env) (r : Resource)
    (h : r.Options.ExternalLogsURL ≠ "") :
    (∃ p, writtenEntities (GetProperties env r) = [p] ∧ p.ExternalLogsURL = "/v1/logs-proxy")
      ∧ ∀ (env' : Env) (url : String), url ≠ "" →
          sameResults env r env' (withExternalLogsURL r url) →
          GetProperties env' (withExternalLogsURL r url) = GetProperties env r
            ∧ writtenEntities (GetProperties env' (withExternalLogsURL r url)) =
                writtenEntities (GetProperties env r) := by
  constructor
  · exact ⟨_, writtenEntities_GetProperties env r, by simp [GetProperties.record, h]⟩
  · intro env' url hurl hsame
    obtain ⟨h1, h2, h3, h4, h5, h6⟩ := hsame
    have hi : (withExternalLogsURL r url).Options.InstallNamespace =
        r.Options.InstallNamespace := rfl
    have he : (withExternalLogsURL r url).Options.ExternalLogsURL = url := rfl
    have hr : (withExternalLogsURL r url).Options.ReadOnly = r.Options.ReadOnly := rfl
    have hl : (withExternalLogsURL r url).Options.LogoutURL = r.Options.LogoutURL := rfl
    have ht : (withExternalLogsURL r url).Options.TenantNamespace =
        r.Options.TenantNamespace := rfl
    have hs : (withExternalLogsURL r url).Options.StreamLogs = r.Options.StreamLogs := rfl
    rw [hi] at h3
    rw [h1] at h4
    rw [h2] at h5 h6
    have hp : GetProperties.record env' (withExternalLogsURL r url) =
        GetProperties.record env r := by
      simp only [GetProperties.record, hi, he, hr, hl, ht, hs, h1, h2, h3, h4, h5, h6]
      simp [h, hurl]
    have hc : GetProperties env' (withExternalLogsURL r url) = GetProperties env r := by
      simp only [GetProperties_eq, hp, hi, h1, h2, h5]
    exact ⟨hc, by rw [hc]⟩

/-- Witness of C4: the example configuration, and the same with another
external logs URL. -/
theorem GetProperties_externalLogsURL_witness :
    exampleOptions.ExternalLogsURL ≠ ""
      ∧ writtenEntities (GetProperties (cluster "v0.19.0" "v0.25.0" "" false)
          (withExternalLogsURL (resourceFor "" exampleOptions) "https://elsewhere/logs")) =
        writtenEntities (GetProperties (cluster "v0.19.0" "v0.25.0" "" false)
          (resourceFor "" exampleOptions)) :=
  ⟨by decide,
   ((GetProperties_externalLogsURL (cluster "v0.19.0" "v0.25.0" "" false)
      (resourceFor "" exampleOptions) (by decide)).2 (cluster "v0.19.0" "v0.25.0" "" false)
      "https://elsewhere/logs" (by decide) (by decide)).2⟩

/-- C5: when the detector reports the extension as not installed in the
resolved triggers namespace, the record written has `TriggersNamespace` and
`TriggersVersion` empty, `getTriggersVersion` is not called, and the serialized
output has neither the `TriggersNamespace` nor the `TriggersVersion` key. -/
theorem GetProperties_triggers_absent (env : Env) (r : Resource)
    (h : env.IsTriggersInstalled r (env.GetTriggersNamespace r.Options) = false) :
    triggersVersionProbes (GetProperties env r) = []
      ∧ ∃ p, writtenEntities (GetProperties env r) = [p]
          ∧ serialized (GetProperties env r) = [marshal p]
          ∧ p.TriggersNamespace = "" ∧ p.TriggersVersion = ""
          ∧ "TriggersNamespace" ∉ keys p ∧ "TriggersVersion" ∉ keys p := by
  have hp : (GetProperties.record env r).TriggersNamespace = ""
      ∧ (GetProperties.record env r).TriggersVersion = "" := by
    simp [GetProperties.record, h]
  refine ⟨by simp [triggersVersionProbes_GetProperties, h], _,
    writtenEntities_GetProperties env r, ?_, hp.1, hp.2, ?_, ?_⟩
  · simp [serialized, writtenEntities_GetProperties]
  · simp [mem_keys_TriggersNamespace, hp.1]
  · simp [mem_keys_TriggersVersion, hp.2]

/-- Witness of C5: the example configuration on a cluster without the
extension. -/
theorem GetProperties_triggers_absent_witness :
    (cluster "" "" "" false).IsTriggersInstalled (resourceFor "" exampleOptions)
        ((cluster "" "" "" false).GetTriggersNamespace (resourceFor "" exampleOptions).Options)
        = false
      ∧ triggersVersionProbes
          (GetProperties (cluster "" "" "" false) (resourceFor "" exampleOptions)) = [] :=
  ⟨rfl, (GetProperties_triggers_absent (cluster "" "" "" false)
    (resourceFor "" exampleOptions) rfl).1⟩

/-- Counterexample to C6: the extension is detected in the namespace
`tekton-triggers` and the version probe returns the empty string; the
serialized output has the `TriggersNamespace` key without the
`TriggersVersion` key. -/
theorem GetProperties_triggers_keys_unpaired :
    ∃ p, writtenEntities (GetProperties (cluster "" "" "" true)
          (resourceFor "" { zeroOptions with TriggersNamespace := "tekton-triggers" })) = [p]
      ∧ "TriggersNamespace" ∈ keys p ∧ "TriggersVersion" ∉ keys p :=
  ⟨_, writtenEntities_GetProperties _ _, by decide, by decide⟩

/-- C6 as amended: the `TriggersNamespace` key is in the serialized output
exactly when the extension is detected and the resolved triggers namespace is
not empty, the `TriggersVersion` key exactly when the extension is detected and
the probed version is not empty; so the two keys are both present or both
absent exactly when the extension is not detected or the resolved namespace
and the probed version are both empty or both non-empty. -/
theorem GetProperties_triggers_keys (env : Env) (r : Resource) :
    ∃ p, writtenEntities (GetProperties env r) = [p]
      ∧ ("TriggersNamespace" ∈ keys p ↔
          (env.IsTriggersInstalled r (env.GetTriggersNamespace r.Options) = true
            ∧ env.GetTriggersNamespace r.Options ≠ ""))
      ∧ ("TriggersVersion" ∈ keys p ↔
          (env.IsTriggersInstalled r (env.GetTriggersNamespace r.Options) = true
            ∧ env.getTriggersVersion r (env.GetTriggersNamespace r.Options) ≠ ""))
      ∧ (("TriggersNamespace" ∈ keys p ↔ "TriggersVersion" ∈ keys p) ↔
          (env.IsTriggersInstalled r (env.GetTriggersNamespace r.Options) = false
            ∨ (env.GetTriggersNamespace r.Options = "" ↔
                env.getTriggersVersion r (env.GetTriggersNamespace r.Options) = ""))) := by
  refine ⟨_, writtenEntities_GetProperties env r, ?_⟩
  rw [mem_keys_TriggersNamespace, mem_keys_TriggersVersion]
  by_cases hd : env.IsTriggersInstalled r (env.GetTriggersNamespace r.Options) = true <;>
    simp [GetProperties.record, hd, not_iff_not]

/-- Counterexample to C7: with every option at its zero value, so with an empty
configured external logs URL, the serialized output has the `ExternalLogsURL`
key, its value the empty string. -/
theorem GetProperties_externalLogsURL_key_not_omitted :
    zeroOptions.ExternalLogsURL = ""
      ∧ ∃ p, writtenEntities (GetProperties (cluster "" "" "" false)
            (resourceFor "" zeroOptions)) = [p]
          ∧ "ExternalLogsURL" ∈ keys p
          ∧ ("ExternalLogsURL", JSONValue.str "") ∈ marshal p :=
  ⟨rfl, _, writtenEntities_GetProperties _ _, by decide, by decide⟩

/-- C7 as amended: for every configuration the serialized output has exactly
one member with the key `ExternalLogsURL`; its value is `"/v1/logs-proxy"` when
the configured external logs URL is not empty and the empty string when it is
empty. -/
theorem GetProperties_externalLogsURL_key (env : Env) (r : Resource) :
    ∃ p, writtenEntities (GetProperties env r) = [p]
      ∧ (marshal p).filter (fun m => m.1 = "ExternalLogsURL") =
          [("ExternalLogsURL",
            JSONValue.str (if r.Options.ExternalLogsURL ≠ "" then "/v1/logs-proxy" else ""))] :=
  ⟨_, writtenEntities_GetProperties env r, by rw [marshal_ExternalLogsURL]; rfl⟩

/-- Counterexample to C8: on the example configuration, with empty version
probes and the extension absent, the serialized output is not the five members
listed: it has seven members, `DashboardVersion` and `PipelineVersion` among
them with empty values, and `StreamLogs` comes before `ExternalLogsURL`. -/
theorem GetProperties_example_not_listed_output :
    serialized (GetProperties (cluster "" "" "" false) (resourceFor "" exampleOptions)) ≠
        [exampleListedOutput]
      ∧ serialized (GetProperties (cluster "" "" "" false) (resourceFor "" exampleOptions)) =
        [exampleOutput] := by
  decide

/-- C8 as amended: on the example configuration, with the pipelines namespace
resolved to `tekton-pipelines`, empty version probes and the extension absent,
the serialized output is exactly the seven members `DashboardNamespace`,
`DashboardVersion` (empty), `PipelineNamespace`, `PipelineVersion` (empty),
`ReadOnly`, `StreamLogs`, `ExternalLogsURL`, in that order. -/
theorem GetProperties_example_output (env : Env) (host : String)
    (hns : env.GetPipelinesNamespace exampleOptions = "tekton-pipelines")
    (hdv : env.getDashboardVersion (resourceFor host exampleOptions) "tekton-dashboard" = "")
    (hpv : env.getPipelineVersion (resourceFor host exampleOptions) "tekton-pipelines" = "")
    (hdet : env.IsTriggersInstalled (resourceFor host exampleOptions)
        (env.GetTriggersNamespace exampleOptions) = false) :
    serialized (GetProperties env (resourceFor host exampleOptions)) = [exampleOutput] := by
  have hi : (resourceFor host exampleOptions).Options.InstallNamespace = "tekton-dashboard" :=
    rfl
  have ho : (resourceFor host exampleOptions).Options = exampleOptions := rfl
  have hp : GetProperties.record env (resourceFor host exampleOptions) =
      { DashboardNamespace := "tekton-dashboard", DashboardVersion := "",
        PipelineNamespace := "tekton-pipelines", PipelineVersion := "",
        TriggersNamespace := "", TriggersVersion := "", ReadOnly := true, LogoutURL := "",
        TenantNamespace := "", StreamLogs := false, ExternalLogsURL := "/v1/logs-proxy" } := by
    simp only [GetProperties.record, ho, hns, hdet]
    simp only [exampleOptions, zeroOptions] at hdv hpv ⊢
    simp [hdv, hpv]
  rw [serialized, writtenEntities_GetProperties, hp]
  decide

/-- Witness of C8 as amended: the example cluster. -/
theorem GetProperties_example_output_witness :
    (cluster "" "" "" false).GetPipelinesNamespace exampleOptions = "tekton-pipelines"
      ∧ serialized (GetProperties (cluster "" "" "" false)
          (resourceFor "https://kubernetes.default" exampleOptions)) = [exampleOutput] :=
  ⟨rfl, GetProperties_example_output (cluster "" "" "" false) "https://kubernetes.default"
    rfl rfl rfl rfl⟩

/-- C9: `GetProperties` writes exactly one record; its eight base fields are
the configured `InstallNamespace`, the dashboard version probed for it, the
resolved pipelines namespace, the pipeline version probed for that namespace,
and the configured `ReadOnly`, `LogoutURL`, `TenantNamespace` and
`StreamLogs`.  They are the same under any other detector, and under any other
`ExternalLogsURL` for which the pipelines resolver and the two probes return
the same results. -/
theorem GetProperties_base_fields (env : Env) (r : Resource) :
    (∃ p, writtenEntities (GetProperties env r) = [p]
      ∧ p.DashboardNamespace = r.Options.InstallNamespace
      ∧ p.DashboardVersion = env.getDashboardVersion r r.Options.InstallNamespace
      ∧ p.PipelineNamespace = env.GetPipelinesNamespace r.Options
      ∧ p.PipelineVersion = env.getPipelineVersion r (env.GetPipelinesNamespace r.Options)
      ∧ p.ReadOnly = r.Options.ReadOnly
      ∧ p.LogoutURL = r.Options.LogoutURL
      ∧ p.TenantNamespace = r.Options.TenantNamespace
      ∧ p.StreamLogs = r.Options.StreamLogs)
    ∧ (∀ detector : Resource → String → Bool,
        (writtenEntities
            (GetProperties { env with IsTriggersInstalled := detector } r)).map baseFields =
          (writtenEntities (GetProperties env r)).map baseFields)
    ∧ (∀ url : String,
        env.GetPipelinesNamespace (withExternalLogsURL r url).Options =
            env.GetPipelinesNamespace r.Options →
        env.getDashboardVersion (withExternalLogsURL r url) r.Options.InstallNamespace =
            env.getDashboardVersion r r.Options.InstallNamespace →
        env.getPipelineVersion (withExternalLogsURL r url) (env.GetPipelinesNamespace r.Options) =
            env.getPipelineVersion r (env.GetPipelinesNamespace r.Options) →
        (writtenEntities (GetProperties env (withExternalLogsURL r url))).map baseFields =
          (writtenEntities (GetProperties env r)).map baseFields) := by
  refine ⟨⟨_, writtenEntities_GetProperties env r, rfl, rfl, rfl, rfl, rfl, rfl, rfl, rfl⟩,
    ?_, ?_⟩
  · intro detector
    simp only [writtenEntities_GetProperties, List.map_cons, List.map_nil, baseFields_record]
  · intro url h1 h2 h3
    have hi : (withExternalLogsURL r url).Options.InstallNamespace =
        r.Options.InstallNamespace := rfl
    simp only [writtenEntities_GetProperties, List.map_cons, List.map_nil, baseFields_record,
      hi, h1, h2, h3]
    rfl

/-- Witness of C9: the example configuration against the same configuration
without an external logs URL. -/
theorem GetProperties_base_fields_witness :
    (writtenEntities (GetProperties (cluster "v0.19.0" "v0.25.0" "v0.15.0" true)
        (withExternalLogsURL (resourceFor "" exampleOptions) ""))).map baseFields =
      (writtenEntities (GetProperties (cluster "v0.19.0" "v0.25.0" "v0.15.0" true)
        (resourceFor "" exampleOptions))).map baseFields :=
  (GetProperties_base_fields (cluster "v0.19.0" "v0.25.0" "v0.15.0" true)
    (resourceFor "" exampleOptions)).2.2 "" rfl rfl rfl

/-- Counterexample to C10: with every option at its zero value the resolved
triggers namespace is empty; the extension is detected there and the version
probe returns `v0.15.0`, yet the serialized output has no `TriggersNamespace`
key. -/
theorem GetProperties_triggers_namespace_key_missing :
    (cluster "" "" "v0.15.0" true).IsTriggersInstalled (resourceFor "" zeroOptions)
        ((cluster "" "" "v0.15.0" true).GetTriggersNamespace zeroOptions) = true
      ∧ (cluster "" "" "v0.15.0" true).getTriggersVersion (resourceFor "" zeroOptions)
        ((cluster "" "" "v0.15.0" true).GetTriggersNamespace zeroOptions) = "v0.15.0"
      ∧ ∃ p, writtenEntities (GetProperties (cluster "" "" "v0.15.0" true)
            (resourceFor "" zeroOptions)) = [p]
          ∧ "TriggersNamespace" ∉ keys p
          ∧ ("TriggersVersion", JSONValue.str "v0.15.0") ∈ marshal p :=
  ⟨rfl, rfl, _, writtenEntities_GetProperties _ _, by decide, by decide⟩

/-- C10 as amended: when the detector, called with the resolved triggers
namespace, reports the extension as installed and the version probe for that
namespace returns a non-empty version, the record written has
`TriggersNamespace` equal to the resolved triggers namespace and
`TriggersVersion` equal to the probed version; the `TriggersVersion` member is
in the serialized output with that version, and the `TriggersNamespace` member
is in it, with that namespace, provided the resolved triggers namespace is not
empty. -/
theorem GetProperties_triggers_present (env : Env) (r : Resource)
    (hdet : env.IsTriggersInstalled r (env.GetTriggersNamespace r.Options) = true)
    (hver : env.getTriggersVersion r (env.GetTriggersNamespace r.Options) ≠ "") :
    detectorCalls (GetProperties env r) = [env.GetTriggersNamespace r.Options]
      ∧ triggersVersionProbes (GetProperties env r) = [env.GetTriggersNamespace r.Options]
      ∧ ∃ p, writtenEntities (GetProperties env r) = [p]
          ∧ p.TriggersNamespace = env.GetTriggersNamespace r.Options
          ∧ p.TriggersVersion = env.getTriggersVersion r (env.GetTriggersNamespace r.Options)
          ∧ ("TriggersVersion",
              JSONValue.str (env.getTriggersVersion r (env.GetTriggersNamespace r.Options)))
              ∈ marshal p
          ∧ (env.GetTriggersNamespace r.Options ≠ "" →
              ("TriggersNamespace", JSONValue.str (env.GetTriggersNamespace r.Options))
                ∈ marshal p) := by
  have hp : (GetProperties.record env r).TriggersNamespace = env.GetTriggersNamespace r.Options
      ∧ (GetProperties.record env r).TriggersVersion =
          env.getTriggersVersion r (env.GetTriggersNamespace r.Options) := by
    simp [GetProperties.record, hdet]
  refine ⟨detectorCalls_GetProperties env r,
    by simp [triggersVersionProbes_GetProperties, hdet],
    _, writtenEntities_GetProperties env r, hp.1, hp.2, ?_, ?_⟩
  · rw [← hp.2] at hver ⊢
    exact mem_marshal_TriggersVersion _ hver
  · intro hns
    rw [← hp.1] at hns ⊢
    exact mem_marshal_TriggersNamespace _ hns

/-- Witness of C10 as amended: the extension in the namespace
`tekton-triggers` at version `v0.15.0`. -/
theorem GetProperties_triggers_present_witness :
    (cluster "" "" "v0.15.0" true).IsTriggersInstalled
        (resourceFor "" { zeroOptions with TriggersNamespace := "tekton-triggers" })
        "tekton-triggers" = true
      ∧ ∃ p, writtenEntities (GetProperties (cluster "" "" "v0.15.0" true)
            (resourceFor "" { zeroOptions with TriggersNamespace := "tekton-triggers" })) = [p]
          ∧ p.TriggersNamespace = "tekton-triggers"
          ∧ p.TriggersVersion = "v0.15.0"
          ∧ ("TriggersVersion", JSONValue.str "v0.15.0") ∈ marshal p
          ∧ ("TriggersNamespace", JSONValue.str "tekton-triggers") ∈ marshal p := by
  refine ⟨rfl, ?_⟩
  obtain ⟨-, -, p, hw, h1, h2, h3, h4⟩ :=
    GetProperties_triggers_present (cluster "" "" "v0.15.0" true)
      (resourceFor "" { zeroOptions with TriggersNamespace := "tekton-triggers" }) rfl
      (by decide)
  exact ⟨p, hw, h1, h2, h3, h4 (by decide)⟩

end Endpoints
